import Mathlib

/-!
# paas-oauth: login and logout handlers

A shallow embedding of `dcos-oauth/login.go` (`handleLogin`, `handleLogout`)
and the properties of the attribute resolution loop, the signed claim set,
the session cookies, the post-login redirect and the error paths.

Conventions of the embedding

* A Go `string` is a Lean `String`; a Go `[]string` that may be `nil` is an
  `Option (List String)` (`none` is the nil slice, `some []` the empty non-nil
  slice); a Go `[]byte` that is only handed on is a `String`, one that is
  encoded is a `List UInt8`.
* A Go `error` is an `Option String` (`none` is `nil`).
* The handler writes to an `http.ResponseWriter`; the embedding records the
  cookies handed to `http.SetCookie`, in call order, and the arguments of
  `http.Redirect`.
* Calls that leave the file (`time.Now`, the OAuth2 client, the HTTP client,
  `json.Unmarshal`, `json.Marshal`, `jose.NewSignedJWT`) are fields of `Env`:
  every theorem holds for every behaviour of these collaborators.
* A Go run-time panic (index out of range, nil pointer dereference) ends the
  run with `Result.panicked`.
-/

namespace PaasOauth

/-! ## Data model -/

/-- One attribute record of the profile document (`profileAttributesStruct`). -/
structure profileAttributesStruct where
  CN : String
  Mail : String
  Groups : Option (List String)
  Tenant : String
deriving DecidableEq, Repr

/-- The profile document returned by the identity provider (`profileStruct`). -/
structure profileStruct where
  Id : String
  Attributes : List profileAttributesStruct
deriving DecidableEq, Repr

/-- The zero value of `profileStruct`, which `var um profileStruct` declares. -/
def profileStruct.zero : profileStruct := { Id := "", Attributes := [] }

/-- A `time.Time`, as the number of nanoseconds since the Unix epoch. -/
structure Time where
  unixNano : Int
deriving DecidableEq, Repr

/-- The duration `time.Second`, in nanoseconds. -/
def Second : Int := 1000000000

/-- The method `t.Add(d)`, with `d` a duration in nanoseconds. -/
def Time.Add (t : Time) (d : Int) : Time := { unixNano := t.unixNano + d }

/-- The method `t.Unix()`: whole seconds since the epoch, rounded down. -/
def Time.Unix (t : Time) : Int := t.unixNano / Second

/-- The function `time.Unix(sec, nsec)`. -/
def timeUnix (sec nsec : Int) : Time := { unixNano := sec * Second + nsec }

/-- The zero `time.Time` (January 1, year 1, UTC), the value of an unset `Expires`. -/
def Time.zero : Time := timeUnix (-62135596800) 0

/-- The method `t.Before(u)`. -/
def Time.Before (t u : Time) : Bool := decide (t.unixNano < u.unixNano)

/-- The fields of `http.Cookie` the handlers set, each defaulting to its Go zero value. -/
structure Cookie where
  Name : String := ""
  Value : String := ""
  Path : String := ""
  Domain : String := ""
  Expires : Time := Time.zero
  MaxAge : Int := 0
  Secure : Bool := false
  HttpOnly : Bool := false
deriving DecidableEq, Repr

/-- A value stored in `jose.Claims` (a `map[string]interface{}`) by `handleLogin`. -/
inductive ClaimValue where
  | str (s : String)
  | int (n : Int)
  | strs (l : Option (List String))
deriving DecidableEq, Repr

/-- The map `jose.Claims`, as the key/value pairs of the map literal in source order. -/
abbrev Claims := List (String × ClaimValue)

/-- Modelled from the spec: the type `User` of package `main` is declared outside
`login.go`; the spec gives the session-info record as `{ uid, description }`, and
`handleLogin` sets exactly the fields `Uid` and `Description`. -/
structure User where
  Uid : String
  Description : String
deriving DecidableEq, Repr

/-- Modelled from the spec: `common.HttpError` and its constructor
`common.NewHttpError(message, status)` live in package `common`; the error value is
recorded as the two arguments of the constructor. -/
structure HttpError where
  message : String
  status : Nat
deriving DecidableEq, Repr

/-- The constant `http.StatusInternalServerError`. -/
def StatusInternalServerError : Nat := 500

/-- The constant `http.StatusFound`. -/
def StatusFound : Nat := 302

/-- The value `oauth2.TokenResponse`, of which only `AccessToken` is read. -/
structure TokenResponse where
  AccessToken : String
deriving DecidableEq, Repr

/-- The `*http.Response` of the profile fetch: its status code and what
`ioutil.ReadAll(resp.Body)` returns (the bytes read and the read error). -/
structure Response where
  StatusCode : Nat
  contents : String
  readErr : Option String
deriving DecidableEq, Repr

/-- The inbound `*http.Request`: its parsed query and its cookies in header order. -/
structure Request where
  Query : String → List String
  Cookies : List Cookie

/-- The method `r.Cookie(name)`: the first cookie of that name, or nil. -/
def Request.Cookie (r : Request) (name : String) : Option Cookie :=
  r.Cookies.find? (fun c => c.Name == name)

/-- The values the handlers read from the context with `ctx.Value`. -/
structure Config where
  oauthProfileUrl : String
  secretKey : List UInt8
  domain : String
  path : String
  rootUrl : String

/-- The collaborators outside `login.go`, as they answer during one request. -/
structure Env where
  /-- The result of `time.Now()`. -/
  now : Time
  /-- The call `o2cli.RequestToken(oauth2.GrantTypeAuthCode, code)`. -/
  requestToken : String → TokenResponse × Option String
  /-- The call `client.Get(url)`: the response pointer (`none` is nil) and the error. -/
  get : String → Option Response × Option String
  /-- The call `json.Unmarshal(contents, &um)` on a zero `um`: the resulting `um` and the error. -/
  unmarshal : String → profileStruct × Option String
  /-- The call `jose.NewSignedJWT(claims, jose.NewSignerHMAC("secret", key))`, followed on
  success by `Encode()`: the encoded token, or the error. -/
  newSignedJWT : Claims → List UInt8 → Except String String
  /-- The call `json.Marshal(user)`. -/
  marshal : User → Except String (List UInt8)

/-- What a `log.Print` or `log.Printf` call is given. -/
inductive LogArg where
  | strs (l : List String)
  | str (s : String)
  | token (t : TokenResponse)
  | err (e : String)
deriving DecidableEq, Repr

/-- One line of the log: the format (or leading) string and the operand. -/
structure LogEntry where
  format : String
  arg : LogArg
deriving DecidableEq, Repr

/-- The arguments of `http.Redirect(w, r, url, code)`. -/
structure Redirect where
  url : String
  code : Nat
deriving DecidableEq, Repr

/-- What the handler did to the `http.ResponseWriter`. -/
structure ResponseWriter where
  cookies : List Cookie := []
  redirect : Option Redirect := none
deriving DecidableEq, Repr

/-- The function `http.SetCookie(w, cookie)`: one more `Set-Cookie` header. (The names
the handlers use are valid cookie names, so no cookie is dropped.) -/
def SetCookie (w : ResponseWriter) (cookie : Cookie) : ResponseWriter :=
  { w with cookies := w.cookies ++ [cookie] }

/-- The function `http.Redirect(w, r, url, code)`. -/
def httpRedirect (w : ResponseWriter) (url : String) (code : Nat) : ResponseWriter :=
  { w with redirect := some { url := url, code := code } }

/-- How a handler call ends: a run-time panic, or a return of `*common.HttpError`
(`none` is the nil return). -/
inductive Result where
  | panicked (reason : String)
  | returned (err : Option HttpError)
deriving DecidableEq, Repr

/-- One run of a handler. -/
structure Run where
  /-- The log lines written, in order. -/
  logs : List LogEntry
  /-- The claim set handed to `jose.NewSignedJWT`, when the run got that far. -/
  signed : Option Claims
  /-- The response writer when the run ended. -/
  w : ResponseWriter
  /-- How the run ended. -/
  result : Result
deriving DecidableEq, Repr

/-! ## Attribute resolution (`handleLogin`, lines 91 to 114) -/

/-- The running values `cn`, `mail`, `groups`, `tenant` of the resolution loop. -/
structure Resolved where
  cn : String
  mail : String
  groups : Option (List String)
  tenant : String
deriving DecidableEq, Repr

/-- The declarations `var cn string`, `var mail string`, `var groups []string`,
`var tenant string`. -/
def Resolved.init : Resolved := { cn := "", mail := "", groups := none, tenant := "" }

/-- The body of `for _, val := range um.Attributes`. -/
def resolveStep (acc : Resolved) (val : profileAttributesStruct) : Resolved :=
  let acc := if val.CN != "" then { acc with cn := val.CN } else acc
  let acc := if val.Mail != "" then { acc with mail := val.Mail } else acc
  let acc := if val.Groups.isSome then { acc with groups := val.Groups } else acc
  let acc := if val.Tenant != "" then { acc with tenant := val.Tenant } else acc
  acc

/-- The loop over `um.Attributes`, from the zero values. -/
def resolveAttributes (attrs : List profileAttributesStruct) : Resolved :=
  attrs.foldl resolveStep Resolved.init

/-! ## URL-safe base64 (`base64.URLEncoding.EncodeToString`) -/

/-- The alphabet `encodeURL` of `encoding/base64`. -/
def encodeURL : List Char :=
  "ABCDEFGHIJKLMNOPQRSTUVWXYZabcdefghijklmnopqrstuvwxyz0123456789-_".toList

/-- The character of the URL-safe alphabet at a six-bit index. -/
def encodeChar (n : Nat) : Char := encodeURL.getD (n % 64) '='

/-- The characters of the padded encoding: three bytes give four characters, and a
last group of one or two bytes is padded with `=`. -/
def encodeGroups : List UInt8 → List Char
  | [] => []
  | [a] =>
    let v := a.toNat * 65536
    [encodeChar (v / 262144), encodeChar (v / 4096), '=', '=']
  | [a, b] =>
    let v := a.toNat * 65536 + b.toNat * 256
    [encodeChar (v / 262144), encodeChar (v / 4096), encodeChar (v / 64), '=']
  | a :: b :: c :: rest =>
    let v := a.toNat * 65536 + b.toNat * 256 + c.toNat
    encodeChar (v / 262144) :: encodeChar (v / 4096) :: encodeChar (v / 64) :: encodeChar v ::
      encodeGroups rest

/-- The method `base64.URLEncoding.EncodeToString(src)`. -/
def EncodeToString (src : List UInt8) : String := String.mk (encodeGroups src)

/-! ## The handlers -/

/-- The constant `cookieMaxAge`, six hours in seconds. -/
def cookieMaxAge : Int := 3600 * 6

/-- The statement `if err != nil { log.Print("error %w", err) }`. -/
def logError (logs : List LogEntry) (err : Option String) : List LogEntry :=
  match err with
  | some e => logs ++ [{ format := "error %w", arg := LogArg.err e }]
  | none => logs

/-- The handler `handleLogin(ctx, w, r)`. -/
def handleLogin (cfg : Config) (env : Env) (w : ResponseWriter) (r : Request) : Run :=
  let code := r.Query "code"
  let logs : List LogEntry := [{ format := "Code: %s", arg := LogArg.strs code }]
  match code with
  | [] =>
    -- code[0] on an empty slice
    { logs := logs, signed := none, w := w, result := Result.panicked "index out of range" }
  | code0 :: _ =>
    let tokenErr := env.requestToken code0
    let token := tokenErr.1
    let logs := logError logs tokenErr.2
    let logs := logs ++ [{ format := "Token: %+v", arg := LogArg.token token }]
    let profileUrl := cfg.oauthProfileUrl ++ token.AccessToken
    let logs := logs ++ [{ format := "Getting profile: %s", arg := LogArg.str profileUrl }]
    let respErr := env.get profileUrl
    let logs := logError logs respErr.2
    match respErr.1 with
    | none =>
      -- defer resp.Body.Close() evaluates resp.Body on a nil resp
      { logs := logs, signed := none, w := w, result := Result.panicked "nil pointer dereference" }
    | some resp =>
      let contents := resp.contents
      let logs := logError logs resp.readErr
      let logs := logs ++ [{ format := "Profile: %s", arg := LogArg.str contents }]
      let umErr := env.unmarshal contents
      let um := umErr.1
      let logs := logError logs umErr.2
      let uid := um.Id
      let res := resolveAttributes um.Attributes
      let cn := res.cn
      let mail := res.mail
      let groups := res.groups
      let tenant := res.tenant
      let expiresTime := env.now.Add (cookieMaxAge * Second)
      let claims : Claims :=
        [("uid", ClaimValue.str uid),
         ("mail", ClaimValue.str mail),
         ("cn", ClaimValue.str cn),
         ("exp", ClaimValue.int expiresTime.Unix),
         ("groups", ClaimValue.strs groups),
         ("tenant", ClaimValue.str tenant)]
      let secretKey := cfg.secretKey
      match env.newSignedJWT claims secretKey with
      | Except.error _ =>
        { logs := logs, signed := some claims, w := w,
          result := Result.returned
            (some { message := "JWT creation error", status := StatusInternalServerError }) }
      | Except.ok encodedClusterToken =>
        let domain := cfg.domain
        let path := cfg.path
        let authCookie : Cookie :=
          { Name := "dcos-acs-auth-cookie",
            Value := encodedClusterToken,
            Path := path,
            HttpOnly := true,
            Expires := expiresTime,
            MaxAge := cookieMaxAge,
            Secure := true }
        let authCookie := if domain != "" then { authCookie with Domain := domain } else authCookie
        let w := SetCookie w authCookie
        let user : User := { Uid := um.Id, Description := um.Id }
        match env.marshal user with
        | Except.error err =>
          { logs := logs ++ [{ format := "Marshal: %v", arg := LogArg.err err }],
            signed := some claims, w := w,
            result := Result.returned
              (some { message := "JSON marshalling failed", status := StatusInternalServerError }) }
        | Except.ok userBytes =>
          let infoCookie : Cookie :=
            { Name := "dcos-acs-info-cookie",
              Value := EncodeToString userBytes,
              Path := path,
              Expires := expiresTime,
              MaxAge := cookieMaxAge,
              Secure := true }
          let infoCookie := if domain != "" then { infoCookie with Domain := domain } else infoCookie
          let w := SetCookie w infoCookie
          let rootUrl := cfg.rootUrl
          let cookieRedirection := r.Cookie "sso_redirection"
          let rootUrl :=
            match cookieRedirection with
            | some c => c.Value
            | none => rootUrl
          let w :=
            match cookieRedirection with
            | some c => SetCookie w { c with MaxAge := -1, Value := "" }
            | none => w
          let w := httpRedirect w rootUrl StatusFound
          { logs := logs, signed := some claims, w := w, result := Result.returned none }

/-- The body of `for _, name := range ...` in `handleLogout`. -/
def logoutStep (cfg : Config) (expiresTime : Time) (w : ResponseWriter) (name : String) :
    ResponseWriter :=
  let domain := cfg.domain
  let path := cfg.path
  let cookie : Cookie :=
    { Name := name,
      Value := "",
      Path := path,
      HttpOnly := true,
      Expires := expiresTime,
      MaxAge := -1 }
  let cookie := if domain != "" then { cookie with Domain := domain } else cookie
  SetCookie w cookie

/-- The handler `handleLogout(ctx, w, r)`. -/
def handleLogout (cfg : Config) (w : ResponseWriter) (_r : Request) : Run :=
  let expiresTime := timeUnix 1 0
  let w := ["dcos-acs-auth-cookie", "dcos-acs-info-cookie"].foldl (logoutStep cfg expiresTime) w
  { logs := [], signed := none, w := w, result := Result.returned none }

/-- The cookies a run handed to `http.SetCookie`, given the writer it started from. -/
def emitted (w : ResponseWriter) (run : Run) : List Cookie :=
  run.w.cookies.drop w.cookies.length

/-- The value stored under a key of a claim set. -/
def Claims.get (c : Claims) (key : String) : Option ClaimValue :=
  (c.find? (fun kv => kv.1 == key)).map Prod.snd

/-! ## Sample inputs -/

/-- A signer that always succeeds and returns a fixed token. -/
def sampleSigner : Claims → List UInt8 → Except String String :=
  fun _ _ => Except.ok "header.payload.signature"

/-- A signer that always fails. -/
def failingSigner : Claims → List UInt8 → Except String String :=
  fun _ _ => Except.error "no signing key"

/-- The bytes of a string of plain ASCII characters. -/
def asciiBytes (s : String) : List UInt8 := s.toList.map (fun c => UInt8.ofNat c.toNat)

/-- A marshaller that writes both fields between quotes; it agrees with `json.Marshal`
on identifiers made of ASCII letters. -/
def sampleMarshal : User → Except String (List UInt8) :=
  fun u => Except.ok (asciiBytes
    ("\x7b\"uid\":\"" ++ u.Uid ++ "\",\"description\":\"" ++ u.Description ++ "\"\x7d"))

/-- The profile document of the worked example of the specification. -/
def aliceJson : String :=
  "\x7b\"id\":\"alice\",\"attributes\":[\x7b\"cn\":\"Alice A\",\"mail\":\"a@x.com\"," ++
    "\"groups\":[\"g1\"],\"tenant\":\"t1\"\x7d]\x7d"

/-- The profile that `aliceJson` decodes to. -/
def aliceProfile : profileStruct :=
  { Id := "alice",
    Attributes := [{ CN := "Alice A", Mail := "a@x.com", Groups := some ["g1"], Tenant := "t1" }] }

/-- A second document for the same id, with other attributes in two records. -/
def aliceOtherJson : String :=
  "\x7b\"id\":\"alice\",\"attributes\":[\x7b\"cn\":\"Alice B\",\"groups\":[\"admins\"]\x7d," ++
    "\x7b\"tenant\":\"t2\"\x7d]\x7d"

/-- The profile that `aliceOtherJson` decodes to. -/
def aliceOtherProfile : profileStruct :=
  { Id := "alice",
    Attributes := [{ CN := "Alice B", Mail := "", Groups := some ["admins"], Tenant := "" },
                   { CN := "", Mail := "", Groups := none, Tenant := "t2" }] }

/-- A body that is not JSON. -/
def htmlBody : String := "<html>Service Unavailable</html>"

/-- A decoder that knows the two sample documents and rejects every other body, leaving
the profile at its zero value, as `json.Unmarshal` does on a syntax error. -/
def sampleUnmarshal : String → profileStruct × Option String :=
  fun body =>
    if body == aliceJson then (aliceProfile, none)
    else if body == aliceOtherJson then (aliceOtherProfile, none)
    else (profileStruct.zero, some "invalid character")

/-- An environment in which the token exchange succeeds, the profile endpoint answers
with the given status and body, and signing and marshalling succeed. -/
def sampleEnv (status : Nat) (body : String) : Env :=
  { now := timeUnix 1700000000 500,
    requestToken := fun _ => ({ AccessToken := "tok" }, none),
    get := fun _ => (some { StatusCode := status, contents := body, readErr := none }, none),
    unmarshal := sampleUnmarshal,
    newSignedJWT := sampleSigner,
    marshal := sampleMarshal }

/-- The sample environment, except that the profile fetch fails on the network: the
client returns a nil response and an error. -/
def refusedEnv : Env :=
  { sampleEnv 200 aliceJson with get := fun _ => (none, some "connection refused") }

/-- The sample environment, except that signing fails. -/
def signFailEnv : Env :=
  { sampleEnv 200 aliceJson with newSignedJWT := failingSigner }

/-- A configuration with a cookie domain. -/
def sampleConfig : Config :=
  { oauthProfileUrl := "https://idp.example/profile?access_token=",
    secretKey := [1, 2, 3],
    domain := "example.com",
    path := "/",
    rootUrl := "https://cluster.example/" }

/-- A configuration without a cookie domain. -/
def hostOnlyConfig : Config := { sampleConfig with domain := "" }

/-- A login request with an authorization code and no cookie. -/
def sampleRequest : Request :=
  { Query := fun k => if k == "code" then ["abc"] else [], Cookies := [] }

/-- A login request that carries the one-shot redirect cookie. -/
def ssoRequest : Request :=
  { Query := fun k => if k == "code" then ["abc"] else [],
    Cookies := [{ Name := "other", Value := "x" },
                { Name := "sso_redirection", Value := "https://cluster.example/app" }] }

/-- A login request that carries the one-shot redirect cookie and no `code` parameter. -/
def ssoNoCodeRequest : Request :=
  { Query := fun _ => [],
    Cookies := [{ Name := "sso_redirection", Value := "https://cluster.example/app" }] }

/-- The auth cookie of a sample login. -/
def sampleAuthCookie (domain : String) : Cookie :=
  { Name := "dcos-acs-auth-cookie", Value := "header.payload.signature", Path := "/",
    Domain := domain, Expires := timeUnix 1700021600 500, MaxAge := 21600,
    Secure := true, HttpOnly := true }

/-- The info cookie of a sample login for the id `alice`. -/
def sampleInfoCookie (domain : String) : Cookie :=
  { Name := "dcos-acs-info-cookie",
    Value := "eyJ1aWQiOiJhbGljZSIsImRlc2NyaXB0aW9uIjoiYWxpY2UifQ==", Path := "/",
    Domain := domain, Expires := timeUnix 1700021600 500, MaxAge := 21600,
    Secure := true, HttpOnly := false }

/-! ## Attribute resolution: last writer wins, field by field -/

theorem resolveStep_cn (acc : Resolved) (val : profileAttributesStruct) :
    (resolveStep acc val).cn = if val.CN != "" then val.CN else acc.cn := by
  unfold resolveStep
  by_cases h1 : (val.CN != "") = true <;> by_cases h2 : (val.Mail != "") = true <;>
    by_cases h3 : val.Groups.isSome = true <;> by_cases h4 : (val.Tenant != "") = true <;>
    simp [h1, h2, h3, h4]

theorem resolveStep_mail (acc : Resolved) (val : profileAttributesStruct) :
    (resolveStep acc val).mail = if val.Mail != "" then val.Mail else acc.mail := by
  unfold resolveStep
  by_cases h1 : (val.CN != "") = true <;> by_cases h2 : (val.Mail != "") = true <;>
    by_cases h3 : val.Groups.isSome = true <;> by_cases h4 : (val.Tenant != "") = true <;>
    simp [h1, h2, h3, h4]

theorem resolveStep_groups (acc : Resolved) (val : profileAttributesStruct) :
    (resolveStep acc val).groups = if val.Groups.isSome then val.Groups else acc.groups := by
  unfold resolveStep
  by_cases h1 : (val.CN != "") = true <;> by_cases h2 : (val.Mail != "") = true <;>
    by_cases h3 : val.Groups.isSome = true <;> by_cases h4 : (val.Tenant != "") = true <;>
    simp [h1, h2, h3, h4]

theorem resolveStep_tenant (acc : Resolved) (val : profileAttributesStruct) :
    (resolveStep acc val).tenant = if val.Tenant != "" then val.Tenant else acc.tenant := by
  unfold resolveStep
  by_cases h1 : (val.CN != "") = true <;> by_cases h2 : (val.Mail != "") = true <;>
    by_cases h3 : val.Groups.isSome = true <;> by_cases h4 : (val.Tenant != "") = true <;>
    simp [h1, h2, h3, h4]

theorem resolveAttributes_nil : resolveAttributes [] = Resolved.init := rfl

theorem resolveAttributes_snoc (attrs : List profileAttributesStruct)
    (val : profileAttributesStruct) :
    resolveAttributes (attrs ++ [val]) = resolveStep (resolveAttributes attrs) val := by
  simp [resolveAttributes, List.foldl_append]

/-- C1. The attribute resolution loop of handleLogin is field-wise last writer wins: cn,
mail and tenant are each the value of the last record, in sequence order, whose value for
that field is a non-empty string, and the empty string when there is none; groups is the
groups of the last record whose groups is non-nil (an empty non-nil list counts and
overrides earlier groups), and nil when there is none. The four fields can come from four
different records. -/
theorem resolveAttributes_last_writer_wins :
    (∀ attrs : List profileAttributesStruct,
      (resolveAttributes attrs).cn
          = ((attrs.reverse.find? (fun val => val.CN != "")).map (fun val => val.CN)).getD "" ∧
      (resolveAttributes attrs).mail
          = ((attrs.reverse.find? (fun val => val.Mail != "")).map (fun val => val.Mail)).getD "" ∧
      (resolveAttributes attrs).groups
          = (attrs.reverse.find? (fun val => val.Groups.isSome)).bind (fun val => val.Groups) ∧
      (resolveAttributes attrs).tenant
          = ((attrs.reverse.find? (fun val => val.Tenant != "")).map
              (fun val => val.Tenant)).getD "") ∧
    resolveAttributes
        [{ CN := "", Mail := "", Groups := some ["g0"], Tenant := "t0" },
         { CN := "c1", Mail := "", Groups := none, Tenant := "" },
         { CN := "", Mail := "m2", Groups := none, Tenant := "" },
         { CN := "", Mail := "", Groups := some [], Tenant := "" },
         { CN := "", Mail := "", Groups := none, Tenant := "t4" },
         { CN := "", Mail := "", Groups := none, Tenant := "" }]
      = { cn := "c1", mail := "m2", groups := some [], tenant := "t4" } := by
  refine ⟨?_, by decide⟩
  intro attrs
  induction attrs using List.reverseRecOn with
  | nil => simp [resolveAttributes_nil, Resolved.init]
  | append_singleton attrs val ih =>
    obtain ⟨hcn, hmail, hgroups, htenant⟩ := ih
    rw [resolveAttributes_snoc, resolveStep_cn, resolveStep_mail, resolveStep_groups,
      resolveStep_tenant, hcn, hmail, hgroups, htenant]
    simp only [List.reverse_append, List.reverse_cons, List.reverse_nil, List.nil_append,
      List.singleton_append, List.find?_cons]
    refine ⟨?_, ?_, ?_, ?_⟩
    · by_cases h : (val.CN != "") = true <;> simp [h]
    · by_cases h : (val.Mail != "") = true <;> simp [h]
    · by_cases h : val.Groups.isSome = true <;> simp [h]
    · by_cases h : (val.Tenant != "") = true <;> simp [h]

/-! ## The paths through `handleLogin` -/

theorem handleLogin_no_code (cfg : Config) (env : Env) (w : ResponseWriter) (r : Request)
    (hcode : r.Query "code" = []) :
    (handleLogin cfg env w r).result = Result.panicked "index out of range" ∧
    (handleLogin cfg env w r).w = w ∧ (handleLogin cfg env w r).signed = none := by
  simp only [handleLogin, hcode, and_self]

theorem handleLogin_nil_response (cfg : Config) (env : Env) (w : ResponseWriter) (r : Request)
    (code0 : String) (rest : List String)
    (hcode : r.Query "code" = code0 :: rest)
    (hget : (env.get (cfg.oauthProfileUrl ++ (env.requestToken code0).1.AccessToken)).1 = none) :
    (handleLogin cfg env w r).result = Result.panicked "nil pointer dereference" ∧
    (handleLogin cfg env w r).w = w ∧ (handleLogin cfg env w r).signed = none := by
  simp only [handleLogin, hcode, hget, and_self]

theorem handleLogin_signed (cfg : Config) (env : Env) (w : ResponseWriter) (r : Request)
    (code0 : String) (rest : List String) (resp : Response) (um : profileStruct)
    (hcode : r.Query "code" = code0 :: rest)
    (hget : (env.get (cfg.oauthProfileUrl ++ (env.requestToken code0).1.AccessToken)).1
      = some resp)
    (hum : (env.unmarshal resp.contents).1 = um) :
    (handleLogin cfg env w r).signed
      = some [("uid", ClaimValue.str um.Id),
              ("mail", ClaimValue.str (resolveAttributes um.Attributes).mail),
              ("cn", ClaimValue.str (resolveAttributes um.Attributes).cn),
              ("exp", ClaimValue.int (env.now.Add (cookieMaxAge * Second)).Unix),
              ("groups", ClaimValue.strs (resolveAttributes um.Attributes).groups),
              ("tenant", ClaimValue.str (resolveAttributes um.Attributes).tenant)] := by
  subst hum
  simp only [handleLogin, hcode, hget]
  split
  · rfl
  · split <;> rfl

theorem handleLogin_sign_error (cfg : Config) (env : Env) (w : ResponseWriter) (r : Request)
    (code0 : String) (rest : List String) (resp : Response) (um : profileStruct) (e : String)
    (hcode : r.Query "code" = code0 :: rest)
    (hget : (env.get (cfg.oauthProfileUrl ++ (env.requestToken code0).1.AccessToken)).1
      = some resp)
    (hum : (env.unmarshal resp.contents).1 = um)
    (hsign : env.newSignedJWT
        [("uid", ClaimValue.str um.Id),
         ("mail", ClaimValue.str (resolveAttributes um.Attributes).mail),
         ("cn", ClaimValue.str (resolveAttributes um.Attributes).cn),
         ("exp", ClaimValue.int (env.now.Add (cookieMaxAge * Second)).Unix),
         ("groups", ClaimValue.strs (resolveAttributes um.Attributes).groups),
         ("tenant", ClaimValue.str (resolveAttributes um.Attributes).tenant)]
        cfg.secretKey = Except.error e) :
    (handleLogin cfg env w r).w = w ∧
    (handleLogin cfg env w r).result
      = Result.returned (some { message := "JWT creation error", status := 500 }) := by
  subst hum
  simp only [handleLogin, hcode, hget, hsign, StatusInternalServerError, and_self]

theorem handleLogin_marshal_error (cfg : Config) (env : Env) (w : ResponseWriter) (r : Request)
    (code0 : String) (rest : List String) (resp : Response) (um : profileStruct)
    (tok e : String)
    (hcode : r.Query "code" = code0 :: rest)
    (hget : (env.get (cfg.oauthProfileUrl ++ (env.requestToken code0).1.AccessToken)).1
      = some resp)
    (hum : (env.unmarshal resp.contents).1 = um)
    (hsign : env.newSignedJWT
        [("uid", ClaimValue.str um.Id),
         ("mail", ClaimValue.str (resolveAttributes um.Attributes).mail),
         ("cn", ClaimValue.str (resolveAttributes um.Attributes).cn),
         ("exp", ClaimValue.int (env.now.Add (cookieMaxAge * Second)).Unix),
         ("groups", ClaimValue.strs (resolveAttributes um.Attributes).groups),
         ("tenant", ClaimValue.str (resolveAttributes um.Attributes).tenant)]
        cfg.secretKey = Except.ok tok)
    (hmarshal : env.marshal { Uid := um.Id, Description := um.Id } = Except.error e) :
    (handleLogin cfg env w r).w
      = { cookies := w.cookies ++
            [{ Name := "dcos-acs-auth-cookie", Value := tok, Path := cfg.path,
               Domain := cfg.domain, Expires := env.now.Add (cookieMaxAge * Second),
               MaxAge := cookieMaxAge, Secure := true, HttpOnly := true }],
          redirect := w.redirect } ∧
    (handleLogin cfg env w r).result
      = Result.returned (some { message := "JSON marshalling failed", status := 500 }) := by
  subst hum
  simp only [handleLogin, hcode, hget, hsign, hmarshal, StatusInternalServerError, SetCookie,
    and_true]
  by_cases hd : cfg.domain = "" <;> simp [hd]

theorem handleLogin_success (cfg : Config) (env : Env) (w : ResponseWriter) (r : Request)
    (code0 : String) (rest : List String) (resp : Response) (um : profileStruct)
    (tok : String) (userBytes : List UInt8)
    (hcode : r.Query "code" = code0 :: rest)
    (hget : (env.get (cfg.oauthProfileUrl ++ (env.requestToken code0).1.AccessToken)).1
      = some resp)
    (hum : (env.unmarshal resp.contents).1 = um)
    (hsign : env.newSignedJWT
        [("uid", ClaimValue.str um.Id),
         ("mail", ClaimValue.str (resolveAttributes um.Attributes).mail),
         ("cn", ClaimValue.str (resolveAttributes um.Attributes).cn),
         ("exp", ClaimValue.int (env.now.Add (cookieMaxAge * Second)).Unix),
         ("groups", ClaimValue.strs (resolveAttributes um.Attributes).groups),
         ("tenant", ClaimValue.str (resolveAttributes um.Attributes).tenant)]
        cfg.secretKey = Except.ok tok)
    (hmarshal : env.marshal { Uid := um.Id, Description := um.Id } = Except.ok userBytes) :
    (handleLogin cfg env w r).w.cookies
      = w.cookies ++
          [{ Name := "dcos-acs-auth-cookie", Value := tok, Path := cfg.path,
             Domain := cfg.domain, Expires := env.now.Add (cookieMaxAge * Second),
             MaxAge := cookieMaxAge, Secure := true, HttpOnly := true },
           { Name := "dcos-acs-info-cookie", Value := EncodeToString userBytes,
             Path := cfg.path, Domain := cfg.domain,
             Expires := env.now.Add (cookieMaxAge * Second),
             MaxAge := cookieMaxAge, Secure := true, HttpOnly := false }] ++
          (match r.Cookie "sso_redirection" with
           | some c => [{ c with MaxAge := -1, Value := "" }]
           | none => []) ∧
    (handleLogin cfg env w r).w.redirect
      = some { url := (match r.Cookie "sso_redirection" with
                       | some c => c.Value
                       | none => cfg.rootUrl),
               code := 302 } ∧
    (handleLogin cfg env w r).result = Result.returned none := by
  subst hum
  simp only [handleLogin, hcode, hget, hsign, hmarshal, SetCookie, httpRedirect, StatusFound,
    and_true]
  by_cases hd : cfg.domain = "" <;> cases r.Cookie "sso_redirection" <;> simp [hd]

/-- A run that returns nil went through every step: the code was present, the profile
fetch gave a response, and signing and marshalling succeeded. -/
theorem handleLogin_returned_nil (cfg : Config) (env : Env) (w : ResponseWriter) (r : Request)
    (h : (handleLogin cfg env w r).result = Result.returned none) :
    ∃ code0 rest resp tok userBytes,
      r.Query "code" = code0 :: rest ∧
      (env.get (cfg.oauthProfileUrl ++ (env.requestToken code0).1.AccessToken)).1 = some resp ∧
      env.newSignedJWT
        [("uid", ClaimValue.str (env.unmarshal resp.contents).1.Id),
         ("mail", ClaimValue.str (resolveAttributes (env.unmarshal resp.contents).1.Attributes).mail),
         ("cn", ClaimValue.str (resolveAttributes (env.unmarshal resp.contents).1.Attributes).cn),
         ("exp", ClaimValue.int (env.now.Add (cookieMaxAge * Second)).Unix),
         ("groups",
           ClaimValue.strs (resolveAttributes (env.unmarshal resp.contents).1.Attributes).groups),
         ("tenant",
           ClaimValue.str (resolveAttributes (env.unmarshal resp.contents).1.Attributes).tenant)]
        cfg.secretKey = Except.ok tok ∧
      env.marshal { Uid := (env.unmarshal resp.contents).1.Id,
                    Description := (env.unmarshal resp.contents).1.Id } = Except.ok userBytes := by
  cases hcode : r.Query "code" with
  | nil => rw [(handleLogin_no_code cfg env w r hcode).1] at h; cases h
  | cons code0 rest =>
    cases hget : (env.get (cfg.oauthProfileUrl ++ (env.requestToken code0).1.AccessToken)).1 with
    | none => rw [(handleLogin_nil_response cfg env w r code0 rest hcode hget).1] at h; cases h
    | some resp =>
      cases hsign : env.newSignedJWT
        [("uid", ClaimValue.str (env.unmarshal resp.contents).1.Id),
         ("mail", ClaimValue.str (resolveAttributes (env.unmarshal resp.contents).1.Attributes).mail),
         ("cn", ClaimValue.str (resolveAttributes (env.unmarshal resp.contents).1.Attributes).cn),
         ("exp", ClaimValue.int (env.now.Add (cookieMaxAge * Second)).Unix),
         ("groups",
           ClaimValue.strs (resolveAttributes (env.unmarshal resp.contents).1.Attributes).groups),
         ("tenant",
           ClaimValue.str (resolveAttributes (env.unmarshal resp.contents).1.Attributes).tenant)]
        cfg.secretKey with
      | error e =>
        rw [(handleLogin_sign_error cfg env w r code0 rest resp _ e hcode hget rfl hsign).2] at h
        cases h
      | ok tok =>
        cases hmarshal : env.marshal (User.mk (env.unmarshal resp.contents).1.Id
                    (env.unmarshal resp.contents).1.Id) with
        | error e =>
          rw [(handleLogin_marshal_error cfg env w r code0 rest resp _ tok e hcode hget rfl
            hsign hmarshal).2] at h
          cases h
        | ok userBytes => exact ⟨code0, rest, resp, tok, userBytes, rfl, hget, hsign, hmarshal⟩

theorem Time.Unix_add_seconds (t : Time) (n : Int) :
    (t.Add (n * Second)).Unix = t.Unix + n := by
  simp only [Time.Add, Time.Unix, Second]
  rw [Int.add_mul_ediv_right _ _ (by decide)]

theorem emitted_of_cookies (w : ResponseWriter) (run : Run) (l : List Cookie)
    (h : run.w.cookies = w.cookies ++ l) : emitted w run = l := by
  simp [emitted, h]

theorem cookieMaxAge_eq : cookieMaxAge = 21600 := by decide

/-! ## The signed claim set -/

/-- C2. For every parsed profile um and every current time, the claim set handleLogin hands
to the signer has exactly the six keys uid, mail, cn, exp, groups, tenant (listed in the
order of the map literal), with uid the profile id, cn, mail, groups and tenant the resolved
attribute values, and exp the Unix seconds of now plus 21600; for the profile of the worked
example the claims are uid alice, cn Alice A, mail a@x.com, groups [g1], tenant t1 and
exp now + 21600. -/
theorem handleLogin_claims (cfg : Config) (env : Env) (w : ResponseWriter) (r : Request)
    (code0 : String) (rest : List String) (resp : Response) (um : profileStruct)
    (hcode : r.Query "code" = code0 :: rest)
    (hget : (env.get (cfg.oauthProfileUrl ++ (env.requestToken code0).1.AccessToken)).1
      = some resp)
    (hum : (env.unmarshal resp.contents).1 = um) :
    (handleLogin cfg env w r).signed
      = some [("uid", ClaimValue.str um.Id),
              ("mail", ClaimValue.str (resolveAttributes um.Attributes).mail),
              ("cn", ClaimValue.str (resolveAttributes um.Attributes).cn),
              ("exp", ClaimValue.int (env.now.Unix + 21600)),
              ("groups", ClaimValue.strs (resolveAttributes um.Attributes).groups),
              ("tenant", ClaimValue.str (resolveAttributes um.Attributes).tenant)] ∧
    (handleLogin cfg env w r).signed.map (fun claims => claims.map Prod.fst)
      = some ["uid", "mail", "cn", "exp", "groups", "tenant"] ∧
    (um = aliceProfile →
      (handleLogin cfg env w r).signed
        = some [("uid", ClaimValue.str "alice"),
                ("mail", ClaimValue.str "a@x.com"),
                ("cn", ClaimValue.str "Alice A"),
                ("exp", ClaimValue.int (env.now.Unix + 21600)),
                ("groups", ClaimValue.strs (some ["g1"])),
                ("tenant", ClaimValue.str "t1")]) := by
  have hs := handleLogin_signed cfg env w r code0 rest resp um hcode hget hum
  rw [cookieMaxAge_eq, Time.Unix_add_seconds] at hs
  refine ⟨hs, by rw [hs]; rfl, ?_⟩
  intro halice
  rw [hs, halice]
  rfl

theorem handleLogin_claims_witness :
    sampleRequest.Query "code" = ["abc"] ∧
    ((sampleEnv 200 aliceJson).get
      (sampleConfig.oauthProfileUrl ++
        ((sampleEnv 200 aliceJson).requestToken "abc").1.AccessToken)).1
      = some { StatusCode := 200, contents := aliceJson, readErr := none } ∧
    ((sampleEnv 200 aliceJson).unmarshal aliceJson).1 = aliceProfile ∧
    (handleLogin sampleConfig (sampleEnv 200 aliceJson) {} sampleRequest).signed
      = some [("uid", ClaimValue.str "alice"),
              ("mail", ClaimValue.str "a@x.com"),
              ("cn", ClaimValue.str "Alice A"),
              ("exp", ClaimValue.int 1700021600),
              ("groups", ClaimValue.strs (some ["g1"])),
              ("tenant", ClaimValue.str "t1")] :=
  ⟨rfl, rfl, by decide,
    (handleLogin_claims sampleConfig (sampleEnv 200 aliceJson) {} sampleRequest "abc" []
      { StatusCode := 200, contents := aliceJson, readErr := none } aliceProfile
      rfl rfl (by decide)).2.2 rfl⟩

/-! ## The session cookies -/

/-- C3. On every successful login (handleLogin returns nil) the first two cookies set are
the auth cookie dcos-acs-auth-cookie, whose value is the encoded signed token of the claim
set, with HttpOnly and Secure, the configured path, Expires = now + 6 hours and
MaxAge = 21600, and the info cookie dcos-acs-info-cookie with Secure, without HttpOnly, and
the same Path, Domain, Expires and MaxAge; the Unix seconds of the auth cookie's Expires
are the exp claim of the token. -/
theorem handleLogin_cookies (cfg : Config) (env : Env) (w : ResponseWriter) (r : Request)
    (h : (handleLogin cfg env w r).result = Result.returned none) :
    ∃ claims tok userBytes more,
      (handleLogin cfg env w r).signed = some claims ∧
      env.newSignedJWT claims cfg.secretKey = Except.ok tok ∧
      emitted w (handleLogin cfg env w r)
        = { Name := "dcos-acs-auth-cookie", Value := tok, Path := cfg.path,
            Domain := cfg.domain, Expires := env.now.Add (6 * 3600 * Second),
            MaxAge := 21600, Secure := true, HttpOnly := true } ::
          { Name := "dcos-acs-info-cookie", Value := EncodeToString userBytes,
            Path := cfg.path, Domain := cfg.domain,
            Expires := env.now.Add (6 * 3600 * Second),
            MaxAge := 21600, Secure := true, HttpOnly := false } :: more ∧
      Claims.get claims "exp"
        = some (ClaimValue.int (env.now.Add (6 * 3600 * Second)).Unix) := by
  obtain ⟨code0, rest, resp, tok, userBytes, hcode, hget, hsign, hmarshal⟩ :=
    handleLogin_returned_nil cfg env w r h
  have hs := handleLogin_signed cfg env w r code0 rest resp _ hcode hget rfl
  have hw := (handleLogin_success cfg env w r code0 rest resp _ tok userBytes hcode hget rfl
    hsign hmarshal).1
  rw [List.append_assoc] at hw
  have he := emitted_of_cookies w _ _ hw
  have h6 : (6 * 3600 * Second : Int) = cookieMaxAge * Second := by decide
  refine ⟨_, tok, userBytes,
    (match r.Cookie "sso_redirection" with
     | some c => [{ c with MaxAge := -1, Value := "" }]
     | none => []), hs, hsign, ?_, ?_⟩
  · rw [he, h6, cookieMaxAge_eq]
    rfl
  · rw [h6]
    rfl

theorem handleLogin_cookies_witness :
    (handleLogin sampleConfig (sampleEnv 200 aliceJson) {} ssoRequest).result
      = Result.returned none ∧
    ∃ claims tok userBytes more,
      (handleLogin sampleConfig (sampleEnv 200 aliceJson) {} ssoRequest).signed = some claims ∧
      (sampleEnv 200 aliceJson).newSignedJWT claims sampleConfig.secretKey = Except.ok tok ∧
      emitted {} (handleLogin sampleConfig (sampleEnv 200 aliceJson) {} ssoRequest)
        = { Name := "dcos-acs-auth-cookie", Value := tok, Path := sampleConfig.path,
            Domain := sampleConfig.domain,
            Expires := (sampleEnv 200 aliceJson).now.Add (6 * 3600 * Second),
            MaxAge := 21600, Secure := true, HttpOnly := true } ::
          { Name := "dcos-acs-info-cookie", Value := EncodeToString userBytes,
            Path := sampleConfig.path, Domain := sampleConfig.domain,
            Expires := (sampleEnv 200 aliceJson).now.Add (6 * 3600 * Second),
            MaxAge := 21600, Secure := true, HttpOnly := false } :: more ∧
      Claims.get claims "exp"
        = some (ClaimValue.int ((sampleEnv 200 aliceJson).now.Add (6 * 3600 * Second)).Unix) :=
  ⟨by decide, handleLogin_cookies sampleConfig (sampleEnv 200 aliceJson) {} ssoRequest
    (by decide)⟩

/-! ## The post-login redirect -/

/-- C4, as the code has it. For every login request that handleLogin serves to the end
(the code parameter is present, the profile fetch yields a response, signing and
marshalling succeed, and it returns nil): when the request carries an sso_redirection cookie, the redirect goes to that cookie's value
rather than the configured root URL, and the last cookie set is that cookie with empty
value and MaxAge = -1, the only one of that name; when the request carries none, the
redirect goes to the configured root URL and no cookie named sso_redirection is set. In
both cases the redirect status is 302 Found. -/
theorem handleLogin_redirect (cfg : Config) (env : Env) (w : ResponseWriter) (r : Request)
    (h : (handleLogin cfg env w r).result = Result.returned none) :
    (∀ c, r.Cookie "sso_redirection" = some c →
      c.Name = "sso_redirection" ∧
      (handleLogin cfg env w r).w.redirect = some { url := c.Value, code := 302 } ∧
      ∃ auth info,
        emitted w (handleLogin cfg env w r)
          = [auth, info, { c with Value := "", MaxAge := -1 }] ∧
        auth.Name = "dcos-acs-auth-cookie" ∧ info.Name = "dcos-acs-info-cookie") ∧
    (r.Cookie "sso_redirection" = none →
      (handleLogin cfg env w r).w.redirect = some { url := cfg.rootUrl, code := 302 } ∧
      ∀ c ∈ emitted w (handleLogin cfg env w r), c.Name ≠ "sso_redirection") ∧
    ((r.Cookie "sso_redirection" = none) ↔ ∀ c ∈ r.Cookies, c.Name ≠ "sso_redirection") := by
  obtain ⟨code0, rest, resp, tok, userBytes, hcode, hget, hsign, hmarshal⟩ :=
    handleLogin_returned_nil cfg env w r h
  obtain ⟨hw, hr, -⟩ := handleLogin_success cfg env w r code0 rest resp _ tok userBytes hcode
    hget rfl hsign hmarshal
  rw [List.append_assoc] at hw
  have he := emitted_of_cookies w _ _ hw
  refine ⟨?_, ?_, ?_⟩
  · intro c hc
    have hname : c.Name = "sso_redirection" := by
      have := List.find?_some hc
      simpa using this
    rw [hc] at hr he
    exact ⟨hname, hr, _, _, he, rfl, rfl⟩
  · intro hc
    rw [hc] at hr he
    refine ⟨hr, ?_⟩
    intro c hmem
    rw [he] at hmem
    simp only [List.append_nil, List.mem_cons, List.mem_singleton, List.not_mem_nil,
      or_false] at hmem
    rcases hmem with hmem | hmem <;> rw [hmem] <;> simp only [ne_eq] <;> decide
  · simp [Request.Cookie, List.find?_eq_none]

theorem handleLogin_redirect_witness :
    (handleLogin sampleConfig (sampleEnv 200 aliceJson) {} ssoRequest).result
      = Result.returned none ∧
    ssoRequest.Cookie "sso_redirection"
      = some { Name := "sso_redirection", Value := "https://cluster.example/app" } ∧
    (handleLogin sampleConfig (sampleEnv 200 aliceJson) {} ssoRequest).w.redirect
      = some { url := "https://cluster.example/app", code := 302 } ∧
    (handleLogin sampleConfig (sampleEnv 200 aliceJson) {} sampleRequest).result
      = Result.returned none ∧
    sampleRequest.Cookie "sso_redirection" = none ∧
    (handleLogin sampleConfig (sampleEnv 200 aliceJson) {} sampleRequest).w.redirect
      = some { url := "https://cluster.example/", code := 302 } :=
  ⟨by decide, by decide,
    ((handleLogin_redirect sampleConfig (sampleEnv 200 aliceJson) {} ssoRequest
      (by decide)).1 { Name := "sso_redirection", Value := "https://cluster.example/app" }
      (by decide)).2.1,
    by decide, by decide,
    ((handleLogin_redirect sampleConfig (sampleEnv 200 aliceJson) {} sampleRequest
      (by decide)).2.1 (by decide)).1⟩

/-- C4 as stated fails: a request that carries the sso_redirection cookie is not
redirected when it has no code parameter (the run panics at the index into the empty
slice), when the profile fetch returns a nil response (the run panics), or when signing
fails (the run returns the 500 error); in each case no redirect is made and the cookie is
not cleared. -/
theorem handleLogin_redirect_counterexample :
    ssoNoCodeRequest.Cookie "sso_redirection"
      = some { Name := "sso_redirection", Value := "https://cluster.example/app" } ∧
    ssoNoCodeRequest.Query "code" = [] ∧
    (handleLogin sampleConfig (sampleEnv 200 aliceJson) {} ssoNoCodeRequest).result
      = Result.panicked "index out of range" ∧
    (handleLogin sampleConfig (sampleEnv 200 aliceJson) {} ssoNoCodeRequest).w
      = { cookies := [], redirect := none } ∧
    ssoRequest.Cookie "sso_redirection"
      = some { Name := "sso_redirection", Value := "https://cluster.example/app" } ∧
    (handleLogin sampleConfig refusedEnv {} ssoRequest).result
      = Result.panicked "nil pointer dereference" ∧
    (handleLogin sampleConfig refusedEnv {} ssoRequest).w
      = { cookies := [], redirect := none } ∧
    (handleLogin sampleConfig signFailEnv {} ssoRequest).result
      = Result.returned (some { message := "JWT creation error", status := 500 }) ∧
    (handleLogin sampleConfig signFailEnv {} ssoRequest).w
      = { cookies := [], redirect := none } := by
  decide

/-! ## The Domain attribute -/

theorem handleLogout_emitted (cfg : Config) (w : ResponseWriter) (r : Request) :
    emitted w (handleLogout cfg w r)
      = [{ Name := "dcos-acs-auth-cookie", Value := "", Path := cfg.path,
           Domain := cfg.domain, Expires := timeUnix 1 0, MaxAge := -1,
           Secure := false, HttpOnly := true },
         { Name := "dcos-acs-info-cookie", Value := "", Path := cfg.path,
           Domain := cfg.domain, Expires := timeUnix 1 0, MaxAge := -1,
           Secure := false, HttpOnly := true }] := by
  apply emitted_of_cookies
  simp only [handleLogout, List.foldl_cons, List.foldl_nil, logoutStep, SetCookie,
    List.append_assoc, List.singleton_append]
  by_cases hd : cfg.domain = "" <;> simp [hd]

/-- The cookies a login sets, on every path: none, the auth cookie alone, or the auth
cookie, the info cookie and possibly the cleared redirect cookie. -/
theorem handleLogin_emitted_cases (cfg : Config) (env : Env) (w : ResponseWriter)
    (r : Request) :
    emitted w (handleLogin cfg env w r) = [] ∨
    (∃ tok, emitted w (handleLogin cfg env w r)
      = [{ Name := "dcos-acs-auth-cookie", Value := tok, Path := cfg.path,
           Domain := cfg.domain, Expires := env.now.Add (cookieMaxAge * Second),
           MaxAge := cookieMaxAge, Secure := true, HttpOnly := true }]) ∨
    (∃ tok userBytes, emitted w (handleLogin cfg env w r)
      = [{ Name := "dcos-acs-auth-cookie", Value := tok, Path := cfg.path,
           Domain := cfg.domain, Expires := env.now.Add (cookieMaxAge * Second),
           MaxAge := cookieMaxAge, Secure := true, HttpOnly := true },
         { Name := "dcos-acs-info-cookie", Value := EncodeToString userBytes,
           Path := cfg.path, Domain := cfg.domain,
           Expires := env.now.Add (cookieMaxAge * Second),
           MaxAge := cookieMaxAge, Secure := true, HttpOnly := false }] ++
        (match r.Cookie "sso_redirection" with
         | some c => [{ c with MaxAge := -1, Value := "" }]
         | none => [])) := by
  cases hcode : r.Query "code" with
  | nil =>
    left
    apply emitted_of_cookies
    rw [(handleLogin_no_code cfg env w r hcode).2.1, List.append_nil]
  | cons code0 rest =>
    cases hget : (env.get (cfg.oauthProfileUrl ++ (env.requestToken code0).1.AccessToken)).1 with
    | none =>
      left
      apply emitted_of_cookies
      rw [(handleLogin_nil_response cfg env w r code0 rest hcode hget).2.1, List.append_nil]
    | some resp =>
      cases hsign : env.newSignedJWT
        [("uid", ClaimValue.str (env.unmarshal resp.contents).1.Id),
         ("mail", ClaimValue.str (resolveAttributes (env.unmarshal resp.contents).1.Attributes).mail),
         ("cn", ClaimValue.str (resolveAttributes (env.unmarshal resp.contents).1.Attributes).cn),
         ("exp", ClaimValue.int (env.now.Add (cookieMaxAge * Second)).Unix),
         ("groups",
           ClaimValue.strs (resolveAttributes (env.unmarshal resp.contents).1.Attributes).groups),
         ("tenant",
           ClaimValue.str (resolveAttributes (env.unmarshal resp.contents).1.Attributes).tenant)]
        cfg.secretKey with
      | error e =>
        left
        apply emitted_of_cookies
        rw [(handleLogin_sign_error cfg env w r code0 rest resp _ e hcode hget rfl hsign).1,
          List.append_nil]
      | ok tok =>
        cases hmarshal : env.marshal (User.mk (env.unmarshal resp.contents).1.Id
                    (env.unmarshal resp.contents).1.Id) with
        | error e =>
          right; left
          refine ⟨tok, ?_⟩
          apply emitted_of_cookies
          rw [(handleLogin_marshal_error cfg env w r code0 rest resp _ tok e hcode hget rfl
            hsign hmarshal).1]
        | ok userBytes =>
          right; right
          refine ⟨tok, userBytes, ?_⟩
          apply emitted_of_cookies
          rw [(handleLogin_success cfg env w r code0 rest resp _ tok userBytes hcode hget rfl
            hsign hmarshal).1, List.append_assoc]

/-- C5. Every auth or info cookie handleLogin sets and every cookie handleLogout sets
carries the configured domain in its Domain field: with an empty configured domain the
field keeps its zero value, the empty string, which stands for a cookie without a Domain
attribute, and with a non-empty configured domain the field equals it. -/
theorem cookies_domain (cfg : Config) (env : Env) (w : ResponseWriter) (r : Request)
    (c : Cookie)
    (hc : (c ∈ emitted w (handleLogin cfg env w r) ∧
            (c.Name = "dcos-acs-auth-cookie" ∨ c.Name = "dcos-acs-info-cookie")) ∨
          c ∈ emitted w (handleLogout cfg w r)) :
    (cfg.domain = "" → c.Domain = "") ∧ (cfg.domain ≠ "" → c.Domain = cfg.domain) := by
  have key : c.Domain = cfg.domain := by
    rcases hc with ⟨hmem, hname⟩ | hmem
    · rcases handleLogin_emitted_cases cfg env w r with he | ⟨tok, he⟩ | ⟨tok, userBytes, he⟩
      · rw [he] at hmem
        cases hmem
      · rw [he] at hmem
        simp only [List.mem_singleton] at hmem
        rw [hmem]
      · rw [he] at hmem
        simp only [List.mem_append, List.mem_cons, List.not_mem_nil, or_false] at hmem
        rcases hmem with (hmem | hmem) | hmem
        · rw [hmem]
        · rw [hmem]
        · exfalso
          cases hcookie : r.Cookie "sso_redirection" with
          | none => rw [hcookie] at hmem; cases hmem
          | some c0 =>
            rw [hcookie] at hmem
            simp only [List.mem_singleton] at hmem
            have hname0 : c0.Name = "sso_redirection" := by
              have := List.find?_some hcookie
              simpa using this
            rw [hmem] at hname
            simp only [hname0] at hname
            rcases hname with hname | hname <;> exact absurd hname (by decide)
    · rw [handleLogout_emitted] at hmem
      simp only [List.mem_cons, List.mem_singleton, List.not_mem_nil, or_false] at hmem
      rcases hmem with hmem | hmem <;> rw [hmem]
  exact ⟨fun h0 => by rw [key, h0], fun _ => key⟩

theorem cookies_domain_witness :
    sampleAuthCookie "" ∈ emitted {} (handleLogin hostOnlyConfig (sampleEnv 200 aliceJson) {}
      ssoRequest) ∧
    (sampleAuthCookie "").Domain = "" ∧
    sampleInfoCookie "example.com" ∈ emitted {} (handleLogin sampleConfig
      (sampleEnv 200 aliceJson) {} ssoRequest) ∧
    (sampleInfoCookie "example.com").Domain = "example.com" :=
  ⟨by decide,
    (cookies_domain hostOnlyConfig (sampleEnv 200 aliceJson) {} ssoRequest (sampleAuthCookie "")
      (Or.inl ⟨by decide, Or.inl rfl⟩)).1 rfl,
    by decide,
    (cookies_domain sampleConfig (sampleEnv 200 aliceJson) {} ssoRequest
      (sampleInfoCookie "example.com") (Or.inl ⟨by decide, Or.inr rfl⟩)).2 (by decide)⟩

/-! ## Logout -/

/-- C6, as the code has it. For every configuration, writer and request, handleLogout sets
exactly two cookies, dcos-acs-auth-cookie and then dcos-acs-info-cookie, each with empty
value, MaxAge = -1, Expires at Unix time 1 and the configured path, and returns nil; the
result does not mention the request, so it does not depend on how the cookies were issued.
Unix time 1 is in the past exactly for a current time later than one second after the
epoch. -/
theorem handleLogout_cookies (cfg : Config) (w : ResponseWriter) (r : Request) :
    (emitted w (handleLogout cfg w r)).map
        (fun c => (c.Name, c.Value, c.MaxAge, c.Expires, c.Path))
      = [("dcos-acs-auth-cookie", "", -1, timeUnix 1 0, cfg.path),
         ("dcos-acs-info-cookie", "", -1, timeUnix 1 0, cfg.path)] ∧
    (handleLogout cfg w r).result = Result.returned none ∧
    (timeUnix 1 0).Unix = 1 ∧
    (∀ now : Time, (timeUnix 1 0).Before now = true ↔ 1 * Second < now.unixNano) ∧
    (∀ r2 : Request, handleLogout cfg w r2 = handleLogout cfg w r) := by
  refine ⟨?_, rfl, by decide, ?_, fun _ => rfl⟩
  · rw [handleLogout_emitted]
    rfl
  · intro now
    simp [Time.Before, timeUnix]

/-- C6 as stated fails: half a second after the epoch, and at Unix time 1 itself, the
current time is after the epoch and the Expires of both cleared cookies is not before it. -/
theorem handleLogout_expiry_counterexample :
    0 < (timeUnix 0 500000000).unixNano ∧
    (emitted {} (handleLogout sampleConfig {} sampleRequest)).map
        (fun c => c.Expires.Before (timeUnix 0 500000000)) = [false, false] ∧
    0 < (timeUnix 1 0).Unix ∧
    (emitted {} (handleLogout sampleConfig {} sampleRequest)).map
        (fun c => c.Expires.Before (timeUnix 1 0)) = [false, false] := by
  decide

/-- C7, as the code has it. Both cookies handleLogout sets have HttpOnly = true, the
cleared dcos-acs-info-cookie included. -/
theorem handleLogout_httpOnly (cfg : Config) (w : ResponseWriter) (r : Request) :
    (emitted w (handleLogout cfg w r)).map (fun c => (c.Name, c.HttpOnly))
      = [("dcos-acs-auth-cookie", true), ("dcos-acs-info-cookie", true)] := by
  rw [handleLogout_emitted]
  rfl

/-- C7 as stated fails: the cleared info cookie has HttpOnly = true. -/
theorem handleLogout_httpOnly_counterexample :
    (emitted {} (handleLogout sampleConfig {} sampleRequest)).map
        (fun c => (c.Name, c.HttpOnly))
      = [("dcos-acs-auth-cookie", true), ("dcos-acs-info-cookie", true)] := by
  decide

/-! ## The error paths of the login -/

/-- C8. The session-info record holds two strings, on which json.Marshal returns no error
(hypothesis hmarshal). Then whenever signing the claim set fails or marshalling the session
info fails, handleLogin returns an HTTP error with status 500 and leaves the response
writer as it found it: neither the auth cookie nor the info cookie has been set, and no
redirect is made. -/
theorem handleLogin_error_paths (cfg : Config) (env : Env) (w : ResponseWriter) (r : Request)
    (code0 : String) (rest : List String) (resp : Response) (um : profileStruct) (e : String)
    (hcode : r.Query "code" = code0 :: rest)
    (hget : (env.get (cfg.oauthProfileUrl ++ (env.requestToken code0).1.AccessToken)).1
      = some resp)
    (hum : (env.unmarshal resp.contents).1 = um)
    (hmarshal : ∀ u : User, ∃ userBytes, env.marshal u = Except.ok userBytes)
    (hfail : env.newSignedJWT
        [("uid", ClaimValue.str um.Id),
         ("mail", ClaimValue.str (resolveAttributes um.Attributes).mail),
         ("cn", ClaimValue.str (resolveAttributes um.Attributes).cn),
         ("exp", ClaimValue.int (env.now.Add (cookieMaxAge * Second)).Unix),
         ("groups", ClaimValue.strs (resolveAttributes um.Attributes).groups),
         ("tenant", ClaimValue.str (resolveAttributes um.Attributes).tenant)]
        cfg.secretKey = Except.error e ∨
      env.marshal { Uid := um.Id, Description := um.Id } = Except.error e) :
    (∃ message, (handleLogin cfg env w r).result
      = Result.returned (some { message := message, status := 500 })) ∧
    emitted w (handleLogin cfg env w r) = [] ∧
    (handleLogin cfg env w r).w = w := by
  rcases hfail with hsign | hfailed
  · obtain ⟨hw, hres⟩ := handleLogin_sign_error cfg env w r code0 rest resp um e hcode hget hum
      hsign
    refine ⟨⟨_, hres⟩, ?_, hw⟩
    apply emitted_of_cookies
    rw [hw, List.append_nil]
  · obtain ⟨userBytes, hok⟩ := hmarshal { Uid := um.Id, Description := um.Id }
    rw [hok] at hfailed
    cases hfailed

theorem handleLogin_error_paths_witness :
    sampleRequest.Query "code" = ["abc"] ∧
    (signFailEnv.get
      (sampleConfig.oauthProfileUrl ++ (signFailEnv.requestToken "abc").1.AccessToken)).1
      = some { StatusCode := 200, contents := aliceJson, readErr := none } ∧
    (signFailEnv.unmarshal aliceJson).1 = aliceProfile ∧
    (∀ u : User, ∃ userBytes, signFailEnv.marshal u = Except.ok userBytes) ∧
    signFailEnv.newSignedJWT
        [("uid", ClaimValue.str aliceProfile.Id),
         ("mail", ClaimValue.str (resolveAttributes aliceProfile.Attributes).mail),
         ("cn", ClaimValue.str (resolveAttributes aliceProfile.Attributes).cn),
         ("exp", ClaimValue.int (signFailEnv.now.Add (cookieMaxAge * Second)).Unix),
         ("groups", ClaimValue.strs (resolveAttributes aliceProfile.Attributes).groups),
         ("tenant", ClaimValue.str (resolveAttributes aliceProfile.Attributes).tenant)]
        sampleConfig.secretKey = Except.error "no signing key" ∧
    (∃ message, (handleLogin sampleConfig signFailEnv {} sampleRequest).result
      = Result.returned (some { message := message, status := 500 })) ∧
    emitted {} (handleLogin sampleConfig signFailEnv {} sampleRequest) = [] ∧
    (handleLogin sampleConfig signFailEnv {} sampleRequest).w = {} :=
  ⟨rfl, rfl, by decide, fun _ => ⟨_, rfl⟩, rfl,
    handleLogin_error_paths sampleConfig signFailEnv {} sampleRequest "abc" []
      { StatusCode := 200, contents := aliceJson, readErr := none } aliceProfile
      "no signing key" rfl rfl (by decide) (fun _ => ⟨_, rfl⟩) (Or.inl rfl)⟩

/-! ## The info cookie -/

theorem handleLogin_success_inv (cfg : Config) (env : Env) (w : ResponseWriter) (r : Request)
    (code0 : String) (rest : List String) (resp : Response) (um : profileStruct)
    (hcode : r.Query "code" = code0 :: rest)
    (hget : (env.get (cfg.oauthProfileUrl ++ (env.requestToken code0).1.AccessToken)).1
      = some resp)
    (hum : (env.unmarshal resp.contents).1 = um)
    (hok : (handleLogin cfg env w r).result = Result.returned none) :
    ∃ tok userBytes,
      env.newSignedJWT
        [("uid", ClaimValue.str um.Id),
         ("mail", ClaimValue.str (resolveAttributes um.Attributes).mail),
         ("cn", ClaimValue.str (resolveAttributes um.Attributes).cn),
         ("exp", ClaimValue.int (env.now.Add (cookieMaxAge * Second)).Unix),
         ("groups", ClaimValue.strs (resolveAttributes um.Attributes).groups),
         ("tenant", ClaimValue.str (resolveAttributes um.Attributes).tenant)]
        cfg.secretKey = Except.ok tok ∧
      env.marshal { Uid := um.Id, Description := um.Id } = Except.ok userBytes := by
  cases hsign : env.newSignedJWT
        [("uid", ClaimValue.str um.Id),
         ("mail", ClaimValue.str (resolveAttributes um.Attributes).mail),
         ("cn", ClaimValue.str (resolveAttributes um.Attributes).cn),
         ("exp", ClaimValue.int (env.now.Add (cookieMaxAge * Second)).Unix),
         ("groups", ClaimValue.strs (resolveAttributes um.Attributes).groups),
         ("tenant", ClaimValue.str (resolveAttributes um.Attributes).tenant)]
        cfg.secretKey with
  | error e =>
    rw [(handleLogin_sign_error cfg env w r code0 rest resp um e hcode hget hum hsign).2] at hok
    cases hok
  | ok tok =>
    cases hmarshal : env.marshal (User.mk um.Id um.Id) with
    | error e =>
      rw [(handleLogin_marshal_error cfg env w r code0 rest resp um tok e hcode hget hum hsign
        hmarshal).2] at hok
      cases hok
    | ok userBytes => exact ⟨tok, userBytes, rfl, rfl⟩

theorem handleLogin_info_value (cfg : Config) (env : Env) (w : ResponseWriter) (r : Request)
    (code0 : String) (rest : List String) (resp : Response) (um : profileStruct)
    (userBytes : List UInt8)
    (hcode : r.Query "code" = code0 :: rest)
    (hget : (env.get (cfg.oauthProfileUrl ++ (env.requestToken code0).1.AccessToken)).1
      = some resp)
    (hum : (env.unmarshal resp.contents).1 = um)
    (hok : (handleLogin cfg env w r).result = Result.returned none)
    (hmarshal : env.marshal { Uid := um.Id, Description := um.Id } = Except.ok userBytes)
    (c : Cookie) (hc : c ∈ emitted w (handleLogin cfg env w r))
    (hname : c.Name = "dcos-acs-info-cookie") :
    c.Value = EncodeToString userBytes := by
  obtain ⟨tok, userBytes2, hsign, hmarshal2⟩ :=
    handleLogin_success_inv cfg env w r code0 rest resp um hcode hget hum hok
  rw [hmarshal] at hmarshal2
  cases hmarshal2
  have hw := (handleLogin_success cfg env w r code0 rest resp um tok userBytes hcode hget hum
    hsign hmarshal).1
  rw [List.append_assoc] at hw
  rw [emitted_of_cookies w _ _ hw] at hc
  simp only [List.mem_append, List.mem_cons, List.not_mem_nil, or_false] at hc
  rcases hc with (hc | hc) | hc
  · rw [hc] at hname
    simp only [] at hname
    exact absurd hname (by decide)
  · rw [hc]
  · exfalso
    cases hcookie : r.Cookie "sso_redirection" with
    | none => rw [hcookie] at hc; cases hc
    | some c0 =>
      rw [hcookie] at hc
      simp only [List.mem_singleton] at hc
      have hname0 : c0.Name = "sso_redirection" := by
        have := List.find?_some hcookie
        simpa using this
      rw [hc] at hname
      simp only [hname0] at hname
      exact absurd hname (by decide)

/-- C9. On a successful login for the parsed profile um, the info cookie (the second cookie
set) has as value the URL-safe base64 encoding of what json.Marshal returns for the
session-info record whose uid and description are both the profile id; and for any second
successful login, under whatever configuration, clock, signer and request, whose profile
has the same id, whatever the attribute records of the two profiles, the info cookie
values are equal. -/
theorem infoCookie_depends_only_on_id (cfg : Config) (env : Env) (w : ResponseWriter)
    (r : Request) (code0 : String) (rest : List String) (resp : Response) (um : profileStruct)
    (hcode : r.Query "code" = code0 :: rest)
    (hget : (env.get (cfg.oauthProfileUrl ++ (env.requestToken code0).1.AccessToken)).1
      = some resp)
    (hum : (env.unmarshal resp.contents).1 = um)
    (hok : (handleLogin cfg env w r).result = Result.returned none) :
    (∃ userBytes auth info more,
      env.marshal { Uid := um.Id, Description := um.Id } = Except.ok userBytes ∧
      emitted w (handleLogin cfg env w r) = auth :: info :: more ∧
      info.Name = "dcos-acs-info-cookie" ∧
      info.Value = EncodeToString userBytes) ∧
    (∀ (cfg2 : Config) (env2 : Env) (w2 : ResponseWriter) (r2 : Request) (code2 : String)
        (rest2 : List String) (resp2 : Response) (um2 : profileStruct),
      r2.Query "code" = code2 :: rest2 →
      (env2.get (cfg2.oauthProfileUrl ++ (env2.requestToken code2).1.AccessToken)).1
        = some resp2 →
      (env2.unmarshal resp2.contents).1 = um2 →
      (handleLogin cfg2 env2 w2 r2).result = Result.returned none →
      env2.marshal = env.marshal →
      um2.Id = um.Id →
      ∀ c c2 : Cookie,
        c ∈ emitted w (handleLogin cfg env w r) →
        c2 ∈ emitted w2 (handleLogin cfg2 env2 w2 r2) →
        c.Name = "dcos-acs-info-cookie" → c2.Name = "dcos-acs-info-cookie" →
        c.Value = c2.Value) := by
  obtain ⟨tok, userBytes, hsign, hmarshal⟩ :=
    handleLogin_success_inv cfg env w r code0 rest resp um hcode hget hum hok
  refine ⟨?_, ?_⟩
  · have hw := (handleLogin_success cfg env w r code0 rest resp um tok userBytes hcode hget hum
      hsign hmarshal).1
    rw [List.append_assoc] at hw
    exact ⟨userBytes, _, _, _, hmarshal, emitted_of_cookies w _ _ hw, rfl, rfl⟩
  · intro cfg2 env2 w2 r2 code2 rest2 resp2 um2 hcode2 hget2 hum2 hok2 hsame hid c c2 hc hc2
      hn hn2
    have hmarshal2 : env2.marshal { Uid := um2.Id, Description := um2.Id }
        = Except.ok userBytes := by
      rw [hsame, hid]
      exact hmarshal
    rw [handleLogin_info_value cfg env w r code0 rest resp um userBytes hcode hget hum hok
        hmarshal c hc hn,
      handleLogin_info_value cfg2 env2 w2 r2 code2 rest2 resp2 um2 userBytes hcode2 hget2 hum2
        hok2 hmarshal2 c2 hc2 hn2]

theorem infoCookie_depends_only_on_id_witness :
    sampleRequest.Query "code" = ["abc"] ∧
    ((sampleEnv 200 aliceJson).unmarshal aliceJson).1 = aliceProfile ∧
    ((sampleEnv 200 aliceOtherJson).unmarshal aliceOtherJson).1 = aliceOtherProfile ∧
    aliceOtherProfile.Id = aliceProfile.Id ∧
    aliceOtherProfile.Attributes ≠ aliceProfile.Attributes ∧
    (handleLogin sampleConfig (sampleEnv 200 aliceJson) {} sampleRequest).result
      = Result.returned none ∧
    (handleLogin hostOnlyConfig (sampleEnv 200 aliceOtherJson) {} ssoRequest).result
      = Result.returned none ∧
    sampleInfoCookie "example.com"
      ∈ emitted {} (handleLogin sampleConfig (sampleEnv 200 aliceJson) {} sampleRequest) ∧
    sampleInfoCookie ""
      ∈ emitted {} (handleLogin hostOnlyConfig (sampleEnv 200 aliceOtherJson) {} ssoRequest) ∧
    (sampleInfoCookie "example.com").Value = (sampleInfoCookie "").Value :=
  ⟨rfl, by decide, by decide, rfl, by decide, by decide, by decide, by decide, by decide,
    (infoCookie_depends_only_on_id sampleConfig (sampleEnv 200 aliceJson) {} sampleRequest
      "abc" [] { StatusCode := 200, contents := aliceJson, readErr := none } aliceProfile
      rfl rfl (by decide) (by decide)).2
      hostOnlyConfig (sampleEnv 200 aliceOtherJson) {} ssoRequest
      "abc" [] { StatusCode := 200, contents := aliceOtherJson, readErr := none }
      aliceOtherProfile rfl rfl (by decide) (by decide) rfl rfl
      (sampleInfoCookie "example.com") (sampleInfoCookie "") (by decide) (by decide) rfl rfl⟩

/-! ## A failed profile fetch -/

theorem mem_logError_self (logs : List LogEntry) (e : String) :
    { format := "error %w", arg := LogArg.err e } ∈ logError logs (some e) := by
  simp [logError]

theorem mem_logError_of_mem (logs : List LogEntry) (err : Option String) (x : LogEntry)
    (h : x ∈ logs) : x ∈ logError logs err := by
  cases err <;> simp [logError, h]

/-- The errors of the profile fetch are logged on every path that gets a response. -/
theorem handleLogin_logs (cfg : Config) (env : Env) (w : ResponseWriter) (r : Request)
    (code0 : String) (rest : List String) (resp : Response) (e : String)
    (hcode : r.Query "code" = code0 :: rest)
    (hget : (env.get (cfg.oauthProfileUrl ++ (env.requestToken code0).1.AccessToken)).1
      = some resp)
    (he : (env.get (cfg.oauthProfileUrl ++ (env.requestToken code0).1.AccessToken)).2 = some e ∨
      resp.readErr = some e ∨ (env.unmarshal resp.contents).2 = some e) :
    { format := "error %w", arg := LogArg.err e } ∈ (handleLogin cfg env w r).logs := by
  have key : { format := "error %w", arg := LogArg.err e } ∈
      logError
        (logError
          (logError
            (logError [{ format := "Code: %s", arg := LogArg.strs (code0 :: rest) }]
                (env.requestToken code0).2 ++
              [{ format := "Token: %+v", arg := LogArg.token (env.requestToken code0).1 }] ++
              [{ format := "Getting profile: %s",
                 arg := LogArg.str
                   (cfg.oauthProfileUrl ++ (env.requestToken code0).1.AccessToken) }])
            (env.get (cfg.oauthProfileUrl ++ (env.requestToken code0).1.AccessToken)).2)
          resp.readErr ++
          [{ format := "Profile: %s", arg := LogArg.str resp.contents }])
        (env.unmarshal resp.contents).2 := by
    rcases he with he | he | he
    · apply mem_logError_of_mem
      apply List.mem_append_left
      apply mem_logError_of_mem
      rw [he]
      exact mem_logError_self _ _
    · apply mem_logError_of_mem
      apply List.mem_append_left
      rw [he]
      exact mem_logError_self _ _
    · rw [he]
      exact mem_logError_self _ _
  simp only [handleLogin, hcode, hget]
  split
  · exact key
  · split
    · exact List.mem_append_left _ key
    · exact key

/-- C10, as the code has it. When the profile GET yields a response, whatever its status
code and whether or not the GET, the body read or the decoding also reported an error, and
json.Unmarshal leaves the profile at its zero value (as for a body that is not JSON),
handleLogin logs each reported error and goes on without a panic: it signs claims with
empty uid, cn, mail and tenant and nil groups and, when signing and marshalling succeed,
sets both cookies, redirects and returns nil. The status code is never read: changing it
changes nothing in the run. -/
theorem handleLogin_empty_profile (cfg : Config) (env : Env) (w : ResponseWriter) (r : Request)
    (code0 : String) (rest : List String) (resp : Response)
    (hcode : r.Query "code" = code0 :: rest)
    (hget : (env.get (cfg.oauthProfileUrl ++ (env.requestToken code0).1.AccessToken)).1
      = some resp)
    (hum : (env.unmarshal resp.contents).1 = profileStruct.zero) :
    (∀ e,
      ((env.get (cfg.oauthProfileUrl ++ (env.requestToken code0).1.AccessToken)).2 = some e ∨
        resp.readErr = some e ∨ (env.unmarshal resp.contents).2 = some e) →
      { format := "error %w", arg := LogArg.err e } ∈ (handleLogin cfg env w r).logs) ∧
    (handleLogin cfg env w r).signed
      = some [("uid", ClaimValue.str ""),
              ("mail", ClaimValue.str ""),
              ("cn", ClaimValue.str ""),
              ("exp", ClaimValue.int (env.now.Unix + 21600)),
              ("groups", ClaimValue.strs none),
              ("tenant", ClaimValue.str "")] ∧
    (∀ reason, (handleLogin cfg env w r).result ≠ Result.panicked reason) ∧
    (∀ tok userBytes,
      env.newSignedJWT
        [("uid", ClaimValue.str ""),
         ("mail", ClaimValue.str ""),
         ("cn", ClaimValue.str ""),
         ("exp", ClaimValue.int (env.now.Unix + 21600)),
         ("groups", ClaimValue.strs none),
         ("tenant", ClaimValue.str "")]
        cfg.secretKey = Except.ok tok →
      env.marshal { Uid := "", Description := "" } = Except.ok userBytes →
      (handleLogin cfg env w r).result = Result.returned none ∧
      (∃ more,
        emitted w (handleLogin cfg env w r)
          = { Name := "dcos-acs-auth-cookie", Value := tok, Path := cfg.path,
              Domain := cfg.domain, Expires := env.now.Add (6 * 3600 * Second),
              MaxAge := 21600, Secure := true, HttpOnly := true } ::
            { Name := "dcos-acs-info-cookie", Value := EncodeToString userBytes,
              Path := cfg.path, Domain := cfg.domain,
              Expires := env.now.Add (6 * 3600 * Second),
              MaxAge := 21600, Secure := true, HttpOnly := false } :: more) ∧
      ∃ url, (handleLogin cfg env w r).w.redirect = some { url := url, code := 302 }) ∧
    (∀ status : Nat,
      handleLogin cfg
          { env with
            get := fun u =>
              ((env.get u).1.map (fun x => { x with StatusCode := status }), (env.get u).2) }
          w r
        = handleLogin cfg env w r) := by
  have hexp : (env.now.Add (cookieMaxAge * Second)).Unix = env.now.Unix + 21600 := by
    rw [cookieMaxAge_eq, Time.Unix_add_seconds]
  have h6 : (6 * 3600 * Second : Int) = cookieMaxAge * Second := by decide
  have hs := handleLogin_signed cfg env w r code0 rest resp _ hcode hget hum
  rw [hexp] at hs
  refine ⟨?_, hs, ?_, ?_, ?_⟩
  · intro e he
    exact handleLogin_logs cfg env w r code0 rest resp e hcode hget he
  · intro reason
    cases hsign : env.newSignedJWT
        [("uid", ClaimValue.str profileStruct.zero.Id),
         ("mail", ClaimValue.str (resolveAttributes profileStruct.zero.Attributes).mail),
         ("cn", ClaimValue.str (resolveAttributes profileStruct.zero.Attributes).cn),
         ("exp", ClaimValue.int (env.now.Add (cookieMaxAge * Second)).Unix),
         ("groups", ClaimValue.strs (resolveAttributes profileStruct.zero.Attributes).groups),
         ("tenant", ClaimValue.str (resolveAttributes profileStruct.zero.Attributes).tenant)]
        cfg.secretKey with
    | error e =>
      rw [(handleLogin_sign_error cfg env w r code0 rest resp _ e hcode hget hum hsign).2]
      intro hne
      cases hne
    | ok tok =>
      cases hmarshal : env.marshal (User.mk profileStruct.zero.Id profileStruct.zero.Id) with
      | error e =>
        rw [(handleLogin_marshal_error cfg env w r code0 rest resp _ tok e hcode hget hum hsign
          hmarshal).2]
        intro hne
        cases hne
      | ok userBytes =>
        rw [(handleLogin_success cfg env w r code0 rest resp _ tok userBytes hcode hget hum
          hsign hmarshal).2.2]
        intro hne
        cases hne
  · intro tok userBytes hsign hmarshal
    rw [← hexp] at hsign
    obtain ⟨hw, hr, hres⟩ := handleLogin_success cfg env w r code0 rest resp profileStruct.zero
      tok userBytes hcode hget hum hsign hmarshal
    rw [List.append_assoc] at hw
    have hem := emitted_of_cookies w _ _ hw
    rw [cookieMaxAge_eq] at hem
    rw [h6, cookieMaxAge_eq]
    exact ⟨hres, ⟨_, hem⟩, ⟨_, hr⟩⟩
  · intro status
    simp only [handleLogin]
    cases r.Query "code" with
    | nil => rfl
    | cons c0 cs =>
      simp only []
      cases (env.get (cfg.oauthProfileUrl ++ (env.requestToken c0).1.AccessToken)).1 with
      | none => rfl
      | some x => rfl

theorem handleLogin_empty_profile_witness :
    sampleRequest.Query "code" = ["abc"] ∧
    ((sampleEnv 503 htmlBody).unmarshal htmlBody).1 = profileStruct.zero ∧
    (handleLogin sampleConfig (sampleEnv 503 htmlBody) {} sampleRequest).signed
      = some [("uid", ClaimValue.str ""),
              ("mail", ClaimValue.str ""),
              ("cn", ClaimValue.str ""),
              ("exp", ClaimValue.int 1700021600),
              ("groups", ClaimValue.strs none),
              ("tenant", ClaimValue.str "")] ∧
    { format := "error %w", arg := LogArg.err "invalid character" }
      ∈ (handleLogin sampleConfig (sampleEnv 503 htmlBody) {} sampleRequest).logs :=
  ⟨rfl, by decide,
    (handleLogin_empty_profile sampleConfig (sampleEnv 503 htmlBody) {} sampleRequest "abc" []
      { StatusCode := 503, contents := htmlBody, readErr := none } rfl rfl (by decide)).2.1,
    (handleLogin_empty_profile sampleConfig (sampleEnv 503 htmlBody) {} sampleRequest "abc" []
      { StatusCode := 503, contents := htmlBody, readErr := none } rfl rfl (by decide)).1
      "invalid character" (Or.inr (Or.inr (by decide)))⟩

/-- C10 as stated fails. On a network error the HTTP client returns a nil response, and the
run ends in a nil pointer dereference with no cookie and no redirect; and a response with
status 503 whose body decodes is used as the profile, so the claims are not empty. -/
theorem handleLogin_fetch_failure_counterexample :
    (refusedEnv.get
      (sampleConfig.oauthProfileUrl ++ (refusedEnv.requestToken "abc").1.AccessToken))
      = (none, some "connection refused") ∧
    (handleLogin sampleConfig refusedEnv {} sampleRequest).result
      = Result.panicked "nil pointer dereference" ∧
    (handleLogin sampleConfig refusedEnv {} sampleRequest).signed = none ∧
    (handleLogin sampleConfig refusedEnv {} sampleRequest).w = {} ∧
    ((sampleEnv 503 aliceJson).get
      (sampleConfig.oauthProfileUrl ++ ((sampleEnv 503 aliceJson).requestToken "abc").1.AccessToken))
      = (some { StatusCode := 503, contents := aliceJson, readErr := none }, none) ∧
    (handleLogin sampleConfig (sampleEnv 503 aliceJson) {} sampleRequest).signed
      = some [("uid", ClaimValue.str "alice"),
              ("mail", ClaimValue.str "a@x.com"),
              ("cn", ClaimValue.str "Alice A"),
              ("exp", ClaimValue.int 1700021600),
              ("groups", ClaimValue.strs (some ["g1"])),
              ("tenant", ClaimValue.str "t1")] ∧
    (handleLogin sampleConfig (sampleEnv 503 aliceJson) {} sampleRequest).result
      = Result.returned none := by
  decide

end PaasOauth
